import Mathlib

/-!
Verification of the TileDB cloud Jupyter contents manager
(`tiledbcontents/tiledbcontents.py`), via a shallow embedding of its
path handling, catalog listing, array lifecycle and save logic.

Remote collaborators (the TileDB cloud catalog and the array store) are
modelled as function-valued parameters returning `Except`-style results;
Python exceptions are modelled by the `Err` type below.  Python `dict`
models are embedded through the `PyVal` type, and the Jupyter content
model through the `Model` type.  `os.sep` is `"/"` on the deployment
platform (posix), so both split calls in the source use the separator
`"/"` here.
-/

/-- Python `str.strip("/")`: drop every leading and trailing `/`. -/
def pyStrip (s : String) : String :=
  String.mk (((s.toList.dropWhile (· == '/')).reverse.dropWhile (· == '/')).reverse)

/-- Worker for `pySplit`: structurally recursive scan.  `acc` holds the
current segment reversed; `skip` counts separator characters still to
be consumed after a match. -/
def pySplitAux (sep : List Char) : List Char → List Char → Nat → List (List Char)
  | [], acc, _ => [acc.reverse]
  | _ :: rest, acc, skip + 1 =>
    -- consuming the tail of a matched separator occurrence
    pySplitAux sep rest acc skip
  | c :: rest, acc, 0 =>
    if sep.isPrefixOf (c :: rest) then
      acc.reverse :: pySplitAux sep rest [] (sep.length - 1)
    else
      pySplitAux sep rest (c :: acc) 0

/-- Python `s.split(sep)` for a nonempty separator `sep`: left-to-right
non-overlapping split, keeping empty segments, `[""]` on the empty
string.  (A structural re-implementation of `String.splitOn`, which the
kernel cannot evaluate.) -/
def pySplit (s sep : String) : List String :=
  (pySplitAux sep.toList s.toList [] 0).map String.mk

/-- Python list indexing with negative-index wraparound (`l[i]`, default
`""` out of range to keep the function total; the source never indexes
out of range because `str.split` returns at least one element). -/
def pyGet (l : List String) (i : Int) : String :=
  if i < 0 then l.getD ((l.length : Int) + i).toNat "" else l.getD i.toNat ""

/-- Python `needle in haystack` on strings: substring containment. -/
def pyInStr (needle hay : String) : Bool :=
  (pySplit hay needle).length > 1

/-- Python `s.partition(sep)`: split at the first occurrence of `sep`,
returning `(before, sep, after)`, or `(s, "", "")` when absent. -/
def pyPartition (s sep : String) : String × String × String :=
  match pySplit s sep with
  | [] => (s, "", "")
  | [_] => (s, "", "")
  | x :: y :: rest => (x, sep, String.intercalate sep (y :: rest))

/-- Python `s.rpartition(sep)`: split at the last occurrence of `sep`,
returning `(before, sep, after)`, or `("", "", s)` when absent. -/
def pyRPartition (s sep : String) : String × String × String :=
  match pySplit s sep with
  | [] => ("", "", s)
  | [_] => ("", "", s)
  | x :: y :: rest =>
    (String.intercalate sep ((x :: y :: rest).dropLast), sep,
      (x :: y :: rest).getLastD s)

/-- Python `s.isdigit()` for ASCII strings: nonempty and all digits. -/
def pyIsDigit (s : String) : Bool :=
  s.length > 0 && s.toList.all Char.isDigit

/-- Python `int(s)` on a digit string. -/
def strToNat (s : String) : Nat :=
  s.toList.foldl (fun n c => n * 10 + (c.toNat - 48)) 0

/-- Python `s.endswith(suffix)`, kernel-evaluable. -/
def pyEndsWith (s suffix : String) : Bool :=
  suffix.toList.isSuffixOf s.toList

/-- Python `s[: -n]` for `n ≤ len(s)`, kernel-evaluable. -/
def pyDropRight (s : String) (n : Nat) : String :=
  String.mk (s.toList.take (s.toList.length - n))

/-- Unified model of the Python exceptions the source raises or
propagates.  `http` embeds `tornado.web.HTTPError` as built by
`http_error(code, message)`; `cloudExc` is
`tiledb.cloud.tiledb_cloud_error.TileDBCloudError`; `tdbExc` is
`tiledb.TileDBError`; `typeExc`/`keyExc` are Python `TypeError` and
`KeyError`. -/
inductive Err where
  | http (code : Nat) (message : String)
  | cloudExc (msg : String)
  | tdbExc (msg : String)
  | typeExc (msg : String)
  | keyExc (key : String)
deriving Repr, DecidableEq

/-- Source `http_error(code, message)` from the source. -/
def http_error (code : Nat) (message : String) : Err := .http code message

/-! ## Path classification and URI resolution -/

/-- Source `TileDBContents._is_remote_path`: the first segment equals `cloud`.
The source tests the split on `os.sep` and on `"/"`; both are `"/"` on
the target platform. -/
def isRemotePath (path : String) : Bool :=
  pyGet (pySplit path "/") 0 == "cloud" || pyGet (pySplit path "/") 0 == "cloud"

/-- One iteration of the separator loop in
`TileDBContents._is_remote_dir`, for a single separator. -/
def isRemoteDirWith (sep path : String) : Bool :=
  let splits := pySplit path sep
  (splits.length == 1 && pyGet splits 0 == "cloud") ||
    ((splits.length == 2 || splits.length == 3) &&
      pyGet splits 0 == "cloud" &&
      (pyGet splits 1 == "owned" || pyGet splits 1 == "public" ||
        pyGet splits 1 == "shared"))

/-- Source `TileDBContents._is_remote_dir`: the loop body runs for `os.sep` and
for `"/"`, both `"/"` here. -/
def isRemoteDir (path : String) : Bool :=
  isRemoteDirWith "/" path || isRemoteDirWith "/" path

/-- Source `TileDBContents.tiledb_uri_from_path`: build a `tiledb://` URI from
the last two path segments.  The negative indices `parts[length - 2]`
and `parts[length - 1]` of the source are rendered through `pyGet`; for
a one-element list `length - 2` is `-1`, which Python wraps to the last
element. -/
def tiledbUriFromPath (path : String) : String :=
  let parts := pySplit path "/"
  let parts := if parts.length == 1 then pySplit path "/" else parts
  let length := parts.length
  "tiledb://" ++ pyGet parts ((length : Int) - 2) ++ "/" ++
    pyGet parts ((length : Int) - 1)

/-! ## Filename incrementing and create-with-retry -/

/-- Source `TileDBContents._increment_filename(filename, insert="-")`.  The
extension is taken by `rpartition(".")`, falling back to
`partition(".")` when the last extension is not `ipynb`; a trailing
`insert`-separated digit run in the basename is parsed and incremented,
otherwise a fresh suffix `1` is appended.  (In the source the final
`if start:` is always true because `start` has just been incremented
from a nonnegative value.) -/
def incrementFilename (filename : String) (insert : String) : String :=
  let p1 := pyRPartition filename "."
  let p2 := if p1.2.2 != "ipynb" then pyPartition filename "." else p1
  let basename := p2.1
  let suffix := p2.2.1 ++ p2.2.2
  let parts := pySplit basename insert
  let start :=
    if parts.length > 1 then
      let startStr := pyGet parts ((parts.length : Int) - 1)
      if pyIsDigit startStr then strToNat startStr else 0
    else 0
  let basename :=
    if parts.length > 1 then String.intercalate insert parts.dropLast
    else basename
  let start := start + 1
  let insertI := insert ++ toString start
  basename ++ insertI ++ suffix

/-- The observable outcome of one attempt of the `try` body of
`TileDBContents._create_array` at a given URI: the body either succeeds
(schema creation and `update_info` both go through), raises a
`tiledb.TileDBError` (whose message may or may not contain
`"already exists"`), raises an `HTTPError` (for example the missing
default-s3-path error from `get_s3_prefix`), or raises some other
exception. -/
inductive AttemptResult where
  | ok
  | tdbExc (msg : String)
  | httpExc (code : Nat) (msg : String)
  | otherExc (msg : String)
deriving Repr, DecidableEq

/-- Result of `TileDBContents._create_array`: the returned
`(tiledb_uri, array_name)` pair, the bare `return None` fall-through,
a raised exception, or fuel exhaustion (the source recursion is
unbounded over name collisions, so the embedding carries explicit
fuel). -/
inductive CreateOutcome where
  | ok (tiledbUri arrayName : String)
  | retNone
  | raised (e : Err)
  | fuelOut
deriving Repr, DecidableEq

/-- Source `TileDBContents._create_array(uri, retry)`.  On a `TileDBError`
whose message contains `"already exists"` the final URI segment is
incremented and the call recurses with `retry` unchanged; on any other
`TileDBError` it recurses with `retry - 1` when `retry` is truthy and
otherwise falls through to `return None`; an `HTTPError` is re-raised
and any other exception becomes `http_error(400, ...)`. -/
def createArray (attempt : String → AttemptResult) :
    Nat → String → Nat → CreateOutcome
  | 0, _, _ => .fuelOut
  | fuel + 1, uri, retry =>
    match attempt uri with
    | .ok =>
      let parts := pySplit uri "/"
      let nspace := pyGet parts ((parts.length : Int) - 2)
      let arrayName := pyGet parts ((parts.length : Int) - 1)
      .ok ("tiledb://" ++ nspace ++ "/" ++ arrayName) arrayName
    | .tdbExc msg =>
      if pyInStr "already exists" msg then
        let parts := pySplit uri "/"
        let arrayName := pyGet parts ((parts.length : Int) - 1)
        let arrayName2 := incrementFilename arrayName "-"
        let uri2 := String.intercalate "/" (parts.dropLast ++ [arrayName2])
        createArray attempt fuel uri2 retry
      else if retry ≠ 0 then createArray attempt fuel uri (retry - 1)
      else .retNone
    | .httpExc c m => .raised (.http c m)
    | .otherExc m => .raised (.http 400 ("Error creating file " ++ m ++ " "))

/-- A backend in which every array name is taken except `free`: each
create attempt fails with a name-collision `TileDBError` unless the
requested URI equals `free`. -/
def collideAttempt (free : String) : String → AttemptResult :=
  fun u => if u = free then .ok else .tdbExc "array already exists"

/-! ## The Jupyter content model -/

/-- The polymorphic `content` value of a model dictionary: Python
`None`, raw bytes from the array, a decoded notebook document (the
result of `nbformat.reads`, kept opaque as a string token), or a list
of nested models (a directory listing; also the empty-list initial
value of the notebook branch). -/
inductive MContent (M : Type) where
  | null : MContent M
  | bytes : List Nat → MContent M
  | nbDoc : String → MContent M
  | entries : List M → MContent M
deriving Repr, DecidableEq

/-- The model dictionary built by `base_model` and mutated field by
field in the source.  Field order: name, path, writable,
last_modified, created, content, format, mimetype, type, message. -/
inductive Model where
  | mk (name : String) (path : String) (writable : Bool)
      (lastModified : Nat) (created : Nat) (content : MContent Model)
      (format : Option String) (mimetype : Option String)
      (type : Option String) (message : Option String) : Model

def Model.name : Model → String
  | .mk n _ _ _ _ _ _ _ _ _ => n

def Model.path : Model → String
  | .mk _ p _ _ _ _ _ _ _ _ => p

def Model.writable : Model → Bool
  | .mk _ _ w _ _ _ _ _ _ _ => w

def Model.lastModified : Model → Nat
  | .mk _ _ _ lm _ _ _ _ _ _ => lm

def Model.content : Model → MContent Model
  | .mk _ _ _ _ _ c _ _ _ _ => c

def Model.format : Model → Option String
  | .mk _ _ _ _ _ _ f _ _ _ => f

def Model.mimetype : Model → Option String
  | .mk _ _ _ _ _ _ _ m _ _ => m

def Model.type : Model → Option String
  | .mk _ _ _ _ _ _ _ _ t _ => t

/-- Python `model["path"] = v` -/
def Model.setPath : Model → String → Model
  | .mk n _ w lm cr c f m t msg, p => .mk n p w lm cr c f m t msg

/-- Python `model["writable"] = v` -/
def Model.setWritable : Model → Bool → Model
  | .mk n p _ lm cr c f m t msg, w => .mk n p w lm cr c f m t msg

/-- Python `model["last_modified"] = v` -/
def Model.setLastModified : Model → Nat → Model
  | .mk n p w _ cr c f m t msg, lm => .mk n p w lm cr c f m t msg

/-- Python `model["content"] = v` -/
def Model.setContent : Model → MContent Model → Model
  | .mk n p w lm cr _ f m t msg, c => .mk n p w lm cr c f m t msg

/-- Python `model["format"] = v` -/
def Model.setFormat : Model → Option String → Model
  | .mk n p w lm cr c _ m t msg, f => .mk n p w lm cr c f m t msg

/-- Python `model["mimetype"] = v` -/
def Model.setMimetype : Model → Option String → Model
  | .mk n p w lm cr c f _ t msg, m => .mk n p w lm cr c f m t msg

/-- Python `model["type"] = v` -/
def Model.setType : Model → Option String → Model
  | .mk n p w lm cr c f m _ msg, t => .mk n p w lm cr c f m t msg

/-- Constant `DUMMY_CREATED_DATE = datetime.datetime.fromtimestamp(86400)`,
kept as the raw timestamp. -/
def DUMMY_CREATED_DATE : Nat := 86400

/-- Source `base_model(path)`: name is the final path segment
(`path.rsplit("/", 1)[-1]`), dummy timestamps, writable, no content. -/
def base_model (path : String) : Model :=
  .mk (pyGet (pySplit path "/") (-1)) path true
    DUMMY_CREATED_DATE DUMMY_CREATED_DATE .null none none none none

/-- Source `base_directory_model(path)`: `base_model` updated with
`type="directory"` and `format="json"`. -/
def base_directory_model (path : String) : Model :=
  ((base_model path).setType (some "directory")).setFormat (some "json")

/-! ## Backend array store and catalog collaborators -/

/-- The metadata map of one backend array, with the four recognized
keys. -/
structure ArrayMeta where
  file_size : Option Nat
  mimetype : Option String
  format : Option String
  type : Option String
deriving Repr, DecidableEq

/-- One backend array: the byte cells written at positions
`0 .. data.length - 1` (a later write overwrites a prefix, leaving any
older bytes beyond it in place, as TileDB fragments do) plus the
metadata map. -/
structure BArray where
  data : List Nat
  meta : ArrayMeta
deriving Repr, DecidableEq

/-- Source `tiledb.cloud.array.info(uri)` result: the fields the source
consumes. -/
structure ArrayInfo where
  last_accessed : Nat
  allowed_actions : List String
deriving Repr, DecidableEq

/-- The remote collaborators used by leaf reads and writes, keyed by
`tiledb://` URI: `info` is `tiledb.cloud.array.info`, `openArray` is
`tiledb.open`, and `reads` is the notebook-format decoder
(`nbformat.reads`, opaque). -/
structure Backend where
  info : String → Except Err ArrayInfo
  openArray : String → Except Err BArray
  reads : List Nat → String

/-- One record returned by the catalog listing calls. -/
structure ArrayRecord where
  name : String
  /-- the record's `namespace` field (a Lean keyword, hence renamed) -/
  nspace : String
  last_accessed : Nat
  allowed_actions : List String
deriving Repr, DecidableEq

/-- One entry of `profile.organizations`. -/
structure Organization where
  organization_name : String
deriving Repr, DecidableEq

/-- Source `tiledb.cloud.client.user_profile()` result: the fields used by
`__list_category`. -/
structure UserProfile where
  username : String
  organizations : List Organization
deriving Repr, DecidableEq

/-- The catalog collaborator as seen by `__list_category`: the three
tag-filtered listing calls and the user profile, each either a result
or a raised exception.  `list_arrays` is the owned listing call
(`tiledb.cloud.client.list_arrays`). -/
structure Catalog where
  list_arrays : Except Err (List ArrayRecord)
  list_shared_arrays : Except Err (List ArrayRecord)
  list_public_arrays : Except Err (List ArrayRecord)
  user_profile : Except Err UserProfile

/-! ## Directory synthesis: `__list_category` -/

/-- Python ordered-dict assignment `d[k] = v`: replace the value in
place when the key exists, otherwise append the pair at the end. -/
def odInsert : List (String × Model) → String → Model → List (String × Model)
  | [], k, v => [(k, v)]
  | (k0, v0) :: rest, k, v =>
    if k0 = k then (k0, v) :: rest else (k0, v0) :: odInsert rest k v

/-- The namespace node built in the non-empty branch of
`__list_category`: `base_directory_model(ns)` with `writable = False`
and path `cloud/<category>/<ns>`. -/
def catNsNode (category ns : String) : Model :=
  ((base_directory_model ns).setWritable false).setPath
    ("cloud/" ++ category ++ "/" ++ ns)

/-- The namespace node built in the owned-fallback branch of
`__list_category` (writable is left at its default `True`). -/
def ownedNsNode (category ns : String) : Model :=
  (base_directory_model ns).setPath ("cloud/" ++ category ++ "/" ++ ns)

/-- Source `TileDBCloudContentsManager.__list_category(category, content)`.
Only `shared` and `public` have listing branches; for any other
category (in particular `owned`) `arrays` keeps its initial `[]`, so
the owned profile fallback always runs.  A `TileDBCloudError` from a
collaborator is wrapped as `http_error(500, "Error listing notebooks
in <category>: <e>")` and a `TileDBError` as `http_error(500, str(e))`;
any other exception would propagate unchanged. -/
def listCategory (catalog : Catalog) (category : String) (content : Bool) :
    Except Err Model :=
  let arrays : Except Err (List ArrayRecord) :=
    if category == "shared" then catalog.list_shared_arrays
    else if category == "public" then catalog.list_public_arrays
    else .ok []
  match arrays with
  | .error (.cloudExc e) =>
    .error (http_error 500 ("Error listing notebooks in " ++ category ++ ": " ++ e))
  | .error (.tdbExc e) => .error (http_error 500 e)
  | .error e => .error e
  | .ok arrays =>
    let model := (base_directory_model category).setPath ("cloud/" ++ category)
    if content then
      let model := model.setFormat (some "json")
      if arrays.length == 0 && category == "owned" then
        match catalog.user_profile with
        | .error (.cloudExc e) =>
          .error (http_error 500
            ("Error listing notebooks in " ++ category ++ ": " ++ e))
        | .error (.tdbExc e) => .error (http_error 500 e)
        | .error e => .error e
        | .ok profile =>
          let namespaces :=
            odInsert [] profile.username (ownedNsNode category profile.username)
          let namespaces := profile.organizations.foldl
            (fun d org =>
              if org.organization_name == "public" then d
              else odInsert d org.organization_name
                (ownedNsNode category org.organization_name))
            namespaces
          .ok (model.setContent (.entries (namespaces.map Prod.snd)))
      else
        let namespaces := arrays.foldl
          (fun d nb => odInsert d nb.nspace (catNsNode category nb.nspace)) []
        .ok (model.setContent (.entries (namespaces.map Prod.snd)))
    else .ok model

/-! ## Leaf reads: `_notebook_from_array`, `_file_from_array`,
`_get_type`, `guess_type` -/

/-- Source `TileDBContents._notebook_from_array(uri, content)`.  Within the
`try`, a `TileDBCloudError` is wrapped as `http_error(400, "Error
fetching notebook info: <e>")` and a `TileDBError` as
`http_error(500, str(e))`. -/
def notebookFromArray (b : Backend) (uri : String) (content : Bool) :
    Except Err Model :=
  let model := (base_model uri).setType (some "notebook")
  if content then
    let tiledbUri := tiledbUriFromPath uri
    match b.info tiledbUri with
    | .error (.cloudExc e) =>
      .error (http_error 400 ("Error fetching notebook info: " ++ e))
    | .error (.tdbExc e) => .error (http_error 500 e)
    | .error e => .error e
    | .ok inf =>
      let model := model.setLastModified inf.last_accessed
      let model :=
        if ¬ inf.allowed_actions.contains "write" then model.setWritable false
        else model
      match b.openArray tiledbUri with
      | .error (.cloudExc e) =>
        .error (http_error 400 ("Error fetching notebook info: " ++ e))
      | .error (.tdbExc e) => .error (http_error 500 e)
      | .error e => .error e
      | .ok A =>
        let nbContent : MContent Model :=
          match A.meta.file_size with
          | some fs => .nbDoc (b.reads (A.data.take fs))
          | none => .entries []
        let model := model.setFormat (some "json")
        let model := model.setContent nbContent
        .ok model
  else .ok model

/-- Source `TileDBContents._file_from_array(uri, content, format)`.  Both
exception classes are wrapped with status 500 here. -/
def fileFromArray (b : Backend) (uri : String) (content : Bool)
    (format : Option String) : Except Err Model :=
  let model := (base_model uri).setType (some "file")
  if content then
    let tiledbUri := tiledbUriFromPath uri
    match b.info tiledbUri with
    | .error (.cloudExc e) =>
      .error (http_error 500 ("Error fetching file info: " ++ e))
    | .error (.tdbExc e) => .error (http_error 500 e)
    | .error e => .error e
    | .ok inf =>
      let model := model.setLastModified inf.last_accessed
      let model :=
        if ¬ inf.allowed_actions.contains "write" then model.setWritable false
        else model
      match b.openArray tiledbUri with
      | .error (.cloudExc e) =>
        .error (http_error 500 ("Error fetching file info: " ++ e))
      | .error (.tdbExc e) => .error (http_error 500 e)
      | .error e => .error e
      | .ok A =>
        let model :=
          match A.meta.mimetype with
          | some m => model.setMimetype (some m)
          | none => model
        let model :=
          match A.meta.format with
          | some f => model.setFormat (some f)
          | none => model.setFormat format
        let model :=
          match A.meta.type with
          | some t => model.setType (some t)
          | none => model
        let fileContent : Option (List Nat) :=
          A.meta.file_size.map (fun fs => A.data.take fs)
        let model :=
          match fileContent with
          | some bs => model.setContent (.bytes bs)
          | none => model.setContent (.entries [])
        let model :=
          match fileContent with
          | some bs =>
            if A.meta.type == some "notebook" then
              ((model.setFormat (some "json")).setContent (.nbDoc (b.reads bs)))
            else model
          | none => model
        .ok model
  else .ok model

/-- Source `TileDBContents._get_type(uri)`: return the `type` metadata entry
when present and `None` otherwise; both exception classes are wrapped
with status 500. -/
def getType (b : Backend) (uri : String) : Except Err (Option String) :=
  match b.openArray uri with
  | .error (.cloudExc e) => .error (http_error 500 ("Error getting type: " ++ e))
  | .error (.tdbExc e) => .error (http_error 500 e)
  | .error e => .error e
  | .ok A => .ok A.meta.type

/-- Source `TileDBContents.guess_type(path, allow_directory)`.  For a remote
non-directory path the `.ipynb` suffix is stripped, the URI resolved
and `_get_type` consulted; any exception from that block yields
`"directory"`, and the `return "file"` after the `if/else` is
unreachable.  The local branch delegates `dir_exists` to the
collaborator `dirExists`.  The result is `Option String` because
`_get_type` can return Python `None`. -/
def guessType (b : Backend) (dirExists : String → Bool) (path : String)
    (allow_directory : Bool) : Option String :=
  let pathFixed := pyStrip path
  if isRemotePath pathFixed then
    if isRemoteDir pathFixed then some "directory"
    else
      let pathFixed :=
        if pyEndsWith pathFixed ".ipynb" then pyDropRight pathFixed 6 else pathFixed
      match getType b (tiledbUriFromPath pathFixed) with
      | .error _ => some "directory"
      | .ok t => t
  else if pyEndsWith path ".ipynb" then some "notebook"
  else if allow_directory && dirExists path then some "directory"
  else some "file"

/-! ## Writes: `_write_bytes_to_array`, and the delete / rename calls -/

/-- Source `TileDBContents._write_bytes_to_array(uri, contents, mimetype,
format, type)`.  The hidden instance flag `self._is_new` is threaded as
the explicit argument `isNew`; the `create` argument abstracts
`self._create_array(tiledb_uri, 5)` (returning the renamed pair, the
`None` fall-through, or a raised exception — unpacking `None` raises a
`TypeError`).  The write overwrites cells `0 .. len(contents) - 1`,
sets `file_size`, and refreshes `mimetype` / `format` / `type` only
when the corresponding argument is not `None`.  There is no
`try/except` here: a failing `tiledb.open` propagates.  Returns the
updated backend together with `final_array_name`. -/
def writeBytesToArray (create : String → Except Err (Option (String × String)))
    (b : Backend) (isNew : Bool) (uri : String) (contents : List Nat)
    (mimetype format type : Option String) :
    Except Err (Backend × Option String) :=
  let tiledbUri := tiledbUriFromPath uri
  let step : Except Err (String × Option String) :=
    if isNew then
      match create tiledbUri with
      | .error e => .error e
      | .ok none => .error (.typeExc "cannot unpack non-iterable NoneType object")
      | .ok (some (u2, name2)) => .ok (u2, some name2)
    else .ok (tiledbUri, none)
  match step with
  | .error e => .error e
  | .ok (tiledbUri, finalArrayName) =>
    match b.openArray tiledbUri with
    | .error e => .error e
    | .ok A =>
      let A2 : BArray :=
        { data := contents ++ A.data.drop contents.length,
          meta :=
            { file_size := some contents.length,
              mimetype := match mimetype with
                | some m => some m
                | none => A.meta.mimetype,
              format := match format with
                | some f => some f
                | none => A.meta.format,
              type := match type with
                | some t => some t
                | none => A.meta.type } }
      .ok ({ b with
              openArray := fun u => if u = tiledbUri then .ok A2 else b.openArray u },
            finalArrayName)

/-- The catalog operations used by `delete_file` and `rename_file`. -/
structure CloudOps where
  deregister_array : String → Except Err Unit
  rename_notebook : String → String → Except Err Unit

/-- What a `delete_file` / `rename_file` call did. -/
inductive FileOpOutcome where
  | remoteDone
  | localDelegate
deriving Repr, DecidableEq

/-- Source `TileDBCloudContentsManager.delete_file(path)`.  Note the source's
`"Error deregistering {}: ".format(tiledb_uri, str(e))` has one
placeholder for two arguments, so the exception text is dropped from
the message. -/
def delete_file (ops : CloudOps) (path : String) : Except Err FileOpOutcome :=
  let pathFixed := pyStrip path
  if isRemotePath pathFixed then
    let pathFixed :=
      if pyEndsWith pathFixed ".ipynb" then pyDropRight pathFixed 6 else pathFixed
    let tiledbUri := tiledbUriFromPath pathFixed
    match ops.deregister_array tiledbUri with
    | .error (.cloudExc _) =>
      .error (http_error 500 ("Error deregistering " ++ tiledbUri ++ ": "))
    | .error (.tdbExc e) => .error (http_error 500 e)
    | .error e => .error e
    | .ok _ => .ok .remoteDone
  else .ok .localDelegate

/-- Source `TileDBCloudContentsManager.rename_file(old_path, new_path)`.  The
new array name is the last segment of `new_path`; the same one-slot
format-string issue as in `delete_file` drops the exception text. -/
def rename_file (ops : CloudOps) (old_path new_path : String) :
    Except Err FileOpOutcome :=
  let oldPathFixed := pyStrip old_path
  if isRemotePath oldPathFixed then
    let oldPathFixed :=
      if pyEndsWith oldPathFixed ".ipynb" then pyDropRight oldPathFixed 6
      else oldPathFixed
    let tiledbUri := tiledbUriFromPath oldPathFixed
    let partsNew := pySplit new_path "/"
    let arrayNameNew := pyGet partsNew ((partsNew.length : Int) - 1)
    match ops.rename_notebook tiledbUri arrayNameNew with
    | .error (.cloudExc _) =>
      .error (http_error 500 ("Error renaming " ++ tiledbUri ++ ": "))
    | .error (.tdbExc e) => .error (http_error 500 e)
    | .error e => .error e
    | .ok _ => .ok .remoteDone
  else .ok .localDelegate

/-! ## The `save` entry point up to its backend dispatch -/

/-- A Python value as stored in the incoming `model` dictionary. -/
inductive PyVal where
  | str (s : String)
  | list (l : List PyVal)
  | dict (entries : List (String × PyVal))

/-- First-match association-list lookup (Python dict access on the
models built here, whose keys are distinct). -/
def dictGet (d : List (String × PyVal)) (k : String) : Option PyVal :=
  match d with
  | [] => none
  | (k0, v) :: rest => if k0 = k then some v else dictGet rest k

/-- Python subscript `v[k]` with a string key: a `dict` either yields
the value or raises `KeyError`; a `str` or `list` raises `TypeError`. -/
def pySubscr (v : PyVal) (k : String) : Except Err PyVal :=
  match v with
  | .dict d =>
    match dictGet d k with
    | some w => .ok w
    | none => .error (.keyExc k)
  | .str _ => .error (.typeExc "string indices must be integers")
  | .list _ => .error (.typeExc "list indices must be integers or slices, not str")

/-- Python `k in v` with a string `k`: key membership on a `dict`,
substring containment on a `str`, element equality on a `list`. -/
def pyInOp (k : String) (v : PyVal) : Bool :=
  match v with
  | .dict d => (dictGet d k).isSome
  | .str s => pyInStr k s
  | .list l => l.any (fun x => match x with | .str s => s = k | _ => false)

/-- Does the value equal the Python string `s`? -/
def pyIsStr (v : PyVal) (s : String) : Bool :=
  match v with
  | .str t => t = s
  | _ => false

/-- Rendering of a value by `"%s"`; only the string case is exercised
by the source's error messages that matter here. -/
def pyFormatVal (v : PyVal) : String :=
  match v with
  | .str s => s
  | _ => "<value>"

/-- Lines 969-971 of `save`: `self._is_new = True` followed by
`if 'language_info' in model['content']['metadata']:
self._is_new = False`, given the already-fetched `model['content']`
value. -/
def computeIsNew (content : PyVal) : Except Err Bool :=
  match pySubscr content "metadata" with
  | .error e => .error e
  | .ok md => .ok (¬ pyInOp "language_info" md)

/-- The backend dispatch `save` reaches after its input validation and
newness computation: the local delegate, `_save_notebook_tiledb`, or
`_save_file_tiledb` (each remembered with the path it would write and
the `_is_new` flag in effect). -/
inductive SaveDispatch where
  | localDelegate
  | notebookSave (pathFixed : String) (isNew : Bool)
  | fileSave (pathFixed : String) (isNew : Bool)
deriving Repr, DecidableEq

/-- Source `TileDBCloudContentsManager.save(model, path)` up to the point
where it dispatches into the notebook / file / directory branches
(the branches themselves call `_save_notebook_tiledb` and
`_save_file_tiledb`, i.e. `_write_bytes_to_array`, modelled above).
Validation: missing `type` and missing `content` are 400 errors, an
unhandled type is a 400 error; a local path goes to the superclass;
then the `.ipynb` suffix is stripped, `self._is_new` is computed from
`model['content']['metadata']` (any exception there propagates), and
only then is `model['type']` dispatched on, a remote `directory` save
being a 400 error. -/
def saveDispatch (model : List (String × PyVal)) (path : String) :
    Except Err SaveDispatch :=
  let pathFixed := pyStrip path
  let pathFixed := if pathFixed = "" then "." else pathFixed
  match dictGet model "type" with
  | none => .error (http_error 400 "No file type provided")
  | some ty =>
    if (dictGet model "content").isNone && ¬ pyIsStr ty "directory" then
      .error (http_error 400 "No file content provided")
    else if ¬ (pyIsStr ty "directory" || pyIsStr ty "file" || pyIsStr ty "notebook")
    then
      .error (http_error 400 ("Unhandled contents type: " ++ pyFormatVal ty))
    else if ¬ isRemotePath pathFixed then .ok .localDelegate
    else
      let pathFixed :=
        if pyEndsWith pathFixed ".ipynb" then pyDropRight pathFixed 6 else pathFixed
      match pySubscr (.dict model) "content" with
      | .error e => .error e
      | .ok contentVal =>
        match computeIsNew contentVal with
        | .error e => .error e
        | .ok isNew =>
          if pyIsStr ty "notebook" then .ok (.notebookSave pathFixed isNew)
          else if pyIsStr ty "file" then .ok (.fileSave pathFixed isNew)
          else if isRemotePath pathFixed then
            .error (http_error 400
              ("Trying to create unsupported type: " ++ pyFormatVal ty ++
                " in cloud"))
          else .ok .localDelegate

/-! ## Fixtures and derived observations used by the theorems -/

/-- The names of the entries of a directory model's content list. -/
def modelEntryNames (m : Model) : List String :=
  match m.content with
  | .entries l => l.map Model.name
  | _ => []

/-- The entries of a directory model's content list. -/
def modelEntries (m : Model) : List Model :=
  match m.content with
  | .entries l => l
  | _ => []

/-- First-occurrence deduplication, the key order produced by repeated
Python-dict assignment starting from an empty dict. -/
def dedupFirst (l : List String) : List String :=
  l.foldl (fun acc k => if k ∈ acc then acc else acc ++ [k]) []

/-- A backend whose every catalog/array call raises `TileDBCloudError`
with message `msg`. -/
def bCloudFail (msg : String) : Backend :=
  { info := fun _ => .error (.cloudExc msg),
    openArray := fun _ => .error (.cloudExc msg),
    reads := fun _ => "" }

/-- A backend whose every catalog/array call raises `TileDBError` with
message `msg`. -/
def bTdbFail (msg : String) : Backend :=
  { info := fun _ => .error (.tdbExc msg),
    openArray := fun _ => .error (.tdbExc msg),
    reads := fun _ => "" }

/-- A backend in which every array opens successfully with metadata
`type` entry `t` (and no other metadata). -/
def bWithMeta (t : Option String) : Backend :=
  { info := fun _ => .ok ⟨1, ["write"]⟩,
    openArray := fun _ => .ok ⟨[], ⟨none, none, none, t⟩⟩,
    reads := fun _ => "" }

/-- A catalog whose every call raises `TileDBCloudError` with message
`msg`. -/
def catCloudFail (msg : String) : Catalog :=
  { list_arrays := .error (.cloudExc msg),
    list_shared_arrays := .error (.cloudExc msg),
    list_public_arrays := .error (.cloudExc msg),
    user_profile := .error (.cloudExc msg) }

/-- Delete/rename operations that always raise `TileDBCloudError`. -/
def opsCloudFail (msg : String) : CloudOps :=
  { deregister_array := fun _ => .error (.cloudExc msg),
    rename_notebook := fun _ _ => .error (.cloudExc msg) }

/-- A catalog whose owned listing holds one record in namespace
`alice`, while the current user is `bob` with no organizations. -/
def c2cat : Catalog :=
  { list_arrays := .ok [⟨"nb", "alice", 1, ["write"]⟩],
    list_shared_arrays := .ok [],
    list_public_arrays := .ok [],
    user_profile := .ok ⟨"bob", []⟩ }

/-- A catalog with an empty owned listing whose current user `u`
belongs to organizations `orgA` and `orgB`. -/
def c3cat : Catalog :=
  { list_arrays := .ok [],
    list_shared_arrays := .ok [],
    list_public_arrays := .ok [],
    user_profile := .ok ⟨"u", [⟨"orgA"⟩, ⟨"orgB"⟩]⟩ }

/-- A backend holding exactly one array, at `turi`, with cell bytes
`old` and metadata `meta`; every action is allowed on it. -/
def rtBackend (turi : String) (old : List Nat) (meta : ArrayMeta) : Backend :=
  { info := fun _ => .ok ⟨1, ["write"]⟩,
    openArray := fun u =>
      if u = turi then .ok ⟨old, meta⟩ else .error (.tdbExc "no array"),
    reads := fun _ => "" }

/-! ## Helper lemmas -/

theorem odInsert_map_fst (k : String) (v : Model) :
    ∀ d : List (String × Model),
      (odInsert d k v).map Prod.fst =
        if k ∈ d.map Prod.fst then d.map Prod.fst
        else d.map Prod.fst ++ [k]
  | [] => by simp [odInsert]
  | (k0, v0) :: rest => by
    by_cases h : k0 = k
    · subst h
      simp [odInsert]
    · have h2 : ¬ k = k0 := fun hh => h hh.symm
      simp only [odInsert, if_neg h, List.map_cons, odInsert_map_fst k v rest]
      by_cases hmem : k ∈ rest.map Prod.fst
      · rw [if_pos hmem, if_pos (List.mem_cons_of_mem _ hmem)]
      · rw [if_neg hmem, if_neg (by
          intro hc
          rcases List.mem_cons.mp hc with hc | hc
          · exact h2 hc
          · exact hmem hc)]
        simp

theorem odInsert_forall (f : String → Model) (k : String) :
    ∀ d : List (String × Model), (∀ p ∈ d, p.2 = f p.1) →
      ∀ p ∈ odInsert d k (f k), p.2 = f p.1
  | [], _ => by
    intro p hp
    rcases List.mem_singleton.mp hp with rfl
    rfl
  | (k0, v0) :: rest, h => by
    by_cases hk : k0 = k
    · subst hk
      rw [odInsert, if_pos rfl]
      intro p hp
      rcases List.mem_cons.mp hp with rfl | hp
      · rfl
      · exact h p (List.mem_cons_of_mem _ hp)
    · rw [odInsert, if_neg hk]
      intro p hp
      rcases List.mem_cons.mp hp with rfl | hp
      · exact h (k0, v0) (List.mem_cons_self _ _)
      · exact odInsert_forall f k rest
          (fun q hq => h q (List.mem_cons_of_mem _ hq)) p hp

theorem map_snd_eq_map_fst (f : String → Model) :
    ∀ d : List (String × Model), (∀ p ∈ d, p.2 = f p.1) →
      d.map Prod.snd = (d.map Prod.fst).map f
  | [], _ => rfl
  | (k0, v0) :: rest, h => by
    have h0 : v0 = f k0 := h (k0, v0) (List.mem_cons_self _ _)
    simp only [List.map_cons]
    rw [map_snd_eq_map_fst f rest (fun q hq => h q (List.mem_cons_of_mem _ hq))]
    simp [h0]

theorem foldl_odInsert_snd (f : String → Model) :
    ∀ (ks : List String) (d : List (String × Model)),
      (∀ p ∈ d, p.2 = f p.1) →
      ((ks.foldl (fun d k => odInsert d k (f k)) d).map Prod.snd) =
        ((ks.foldl (fun acc k => if k ∈ acc then acc else acc ++ [k])
          (d.map Prod.fst)).map f)
  | [], d, h => map_snd_eq_map_fst f d h
  | k :: ks, d, h => by
    simp only [List.foldl_cons]
    rw [foldl_odInsert_snd f ks (odInsert d k (f k))
      (odInsert_forall f k d h)]
    rw [odInsert_map_fst]

theorem pyGet_len_sub_two (l : List String) (h : 2 ≤ l.length) :
    pyGet l ((l.length : Int) - 2) = l.getD (l.length - 2) "" := by
  have h0 : ¬ ((l.length : Int) - 2 < 0) := by omega
  rw [pyGet, if_neg h0]
  congr 1
  omega

theorem pyGet_len_sub_one (l : List String) (h : 1 ≤ l.length) :
    pyGet l ((l.length : Int) - 1) = l.getD (l.length - 1) "" := by
  have h0 : ¬ ((l.length : Int) - 1 < 0) := by omega
  rw [pyGet, if_neg h0]
  congr 1
  omega

/-! ## Claim C1 -/

/-- Claim C1, counterexample.  The claim states that a create colliding
with existing names is retried at most 5 times and that 5 consecutive
collisions raise `CreateExhaustedError`.  In the code the collision
branch recurses with `retry` unchanged: against a backend in which
`foo.ipynb` through `foo-6.ipynb` all exist (7 consecutive collisions),
`_create_array` with the call-site budget 5 simply keeps renaming and
returns the eighth name successfully — it neither stops after 5
collisions nor raises (no `CreateExhaustedError` exists anywhere in the
code). -/
theorem create_retry_budget_counterexample :
    createArray (collideAttempt "tiledb://ns/foo-7.ipynb") 20
      "tiledb://ns/foo.ipynb" 5 =
      .ok "tiledb://ns/foo-7.ipynb" "foo-7.ipynb" := by rfl

/-- Claim C1, amended.  Name collisions are retried with an incremented
name without consuming the retry budget at all (here 9 consecutive
collisions succeed even with a budget of 0), while the budget of 5
passed by `_write_bytes_to_array` is consumed only by other
`TileDBError`s, whose exhaustion makes `_create_array` fall through to
`return None` instead of raising any error. -/
theorem create_retry_budget_semantics :
    createArray (collideAttempt "tiledb://ns/foo-9.ipynb") 20
      "tiledb://ns/foo.ipynb" 0 =
      .ok "tiledb://ns/foo-9.ipynb" "foo-9.ipynb"
    ∧ createArray (fun _ => .tdbExc "backend failure") 20
      "tiledb://ns/foo.ipynb" 5 = .retNone := by
  exact ⟨by rfl, by rfl⟩

/-! ## Claim C5 -/

/-- Claim C5, counterexample.  The claim states that resolving a path
with fewer than two segments raises `InvalidPathError`.  The code has
no raise at all (and no `InvalidPathError` exists in the codebase): for
the one-segment path `foo`, Python's negative indexing makes
`parts[length - 2]` wrap to the single segment, and a backend URI is
returned. -/
theorem uri_single_segment_counterexample :
    tiledbUriFromPath "foo" = "tiledb://foo/foo" := by rfl

/-- Claim C5, amended.  URI resolution of a one-segment path does not
fail: it returns `tiledb://<segment>/<segment>`, both URI slots filled
by the same single segment through negative-index wraparound. -/
theorem uri_single_segment_result (p : String)
    (h : pySplit p "/" = [p]) :
    tiledbUriFromPath p = "tiledb://" ++ p ++ "/" ++ p := by
  simp [tiledbUriFromPath, h, pyGet]

/-- Witness for `uri_single_segment_result`. -/
theorem uri_single_segment_result_witness :
    pySplit "x" "/" = ["x"] ∧
      tiledbUriFromPath "x" = "tiledb://" ++ "x" ++ "/" ++ "x" :=
  ⟨by rfl, uri_single_segment_result "x" (by rfl)⟩

/-! ## Claim C9 -/

/-- Claim C9.  A colliding create for `foo.ipynb` derives `foo-1.ipynb`
(numeric suffix joined with `-` before the extension), and a further
collision derives `foo-2.ipynb` (the existing numeric suffix is
incremented): shown both for `_increment_filename` itself and for
`_create_array` runs against backends where the earlier names exist. -/
theorem increment_name_on_collision :
    incrementFilename "foo.ipynb" "-" = "foo-1.ipynb"
    ∧ incrementFilename "foo-1.ipynb" "-" = "foo-2.ipynb"
    ∧ createArray (collideAttempt "tiledb://alice/foo-1.ipynb") 10
        "tiledb://alice/foo.ipynb" 5 =
        .ok "tiledb://alice/foo-1.ipynb" "foo-1.ipynb"
    ∧ createArray (collideAttempt "tiledb://alice/foo-2.ipynb") 10
        "tiledb://alice/foo.ipynb" 5 =
        .ok "tiledb://alice/foo-2.ipynb" "foo-2.ipynb" := by
  exact ⟨by rfl, by rfl, by rfl, by rfl⟩

/-! ## Claim C6 -/

/-- Claim C6, counterexample.  The claim states that catalog/storage
failures during reads are re-raised with status 500.  A
`TileDBCloudError` while reading a notebook is wrapped by
`_notebook_from_array` with status 400, not 500. -/
theorem notebook_read_error_code_counterexample :
    notebookFromArray (bCloudFail "down") "cloud/owned/alice/nb" true =
      .error (.http 400 "Error fetching notebook info: down")
    ∧ ¬ notebookFromArray (bCloudFail "down") "cloud/owned/alice/nb" true =
      .error (.http 500 "Error fetching notebook info: down") := by
  refine ⟨by rfl, ?_⟩
  intro h
  rw [show notebookFromArray (bCloudFail "down") "cloud/owned/alice/nb" true =
      .error (.http 400 "Error fetching notebook info: down") from rfl] at h
  simp at h

/-- Claim C6, amended.  Catalog (`TileDBCloudError`) and storage
(`TileDBError`) failures during listing, file reads, delete and rename
are wrapped with status 500 — with the single exception of a catalog
failure while reading a notebook, which `_notebook_from_array` wraps
with status 400 (a storage failure there still gets 500). -/
theorem error_wrapping_codes (msg : String) :
    notebookFromArray (bCloudFail msg) "cloud/owned/alice/nb" true =
      .error (.http 400 ("Error fetching notebook info: " ++ msg))
    ∧ notebookFromArray (bTdbFail msg) "cloud/owned/alice/nb" true =
      .error (.http 500 msg)
    ∧ fileFromArray (bCloudFail msg) "cloud/owned/alice/f" true none =
      .error (.http 500 ("Error fetching file info: " ++ msg))
    ∧ fileFromArray (bTdbFail msg) "cloud/owned/alice/f" true none =
      .error (.http 500 msg)
    ∧ listCategory (catCloudFail msg) "shared" true =
      .error (.http 500 ("Error listing notebooks in shared: " ++ msg))
    ∧ delete_file (opsCloudFail msg) "cloud/owned/alice/nb.ipynb" =
      .error (.http 500 "Error deregistering tiledb://alice/nb: ")
    ∧ rename_file (opsCloudFail msg) "cloud/owned/alice/nb.ipynb"
        "cloud/owned/alice/nb2" =
      .error (.http 500 "Error renaming tiledb://alice/nb: ") := by
  exact ⟨by rfl, by rfl, by rfl, by rfl, by rfl, by rfl, by rfl⟩

/-! ## Claim C7 -/

/-- Claim C7, counterexample.  The claim states that `guess_type` falls
back to `notebook` when the stripped extension was `.ipynb`.  No such
fallback exists: when the array opens but carries no `type` metadata,
`_get_type` returns Python `None` and `guess_type` returns it as-is,
even for a `.ipynb` path. -/
theorem guess_type_no_notebook_fallback_counterexample :
    guessType (bWithMeta none) (fun _ => false) "cloud/x/alice/nb.ipynb" true = none
    ∧ ¬ guessType (bWithMeta none) (fun _ => false) "cloud/x/alice/nb.ipynb" true =
      some "notebook" := by
  exact ⟨by rfl, by decide⟩

/-- Claim C7, amended.  For a remote non-directory path, `guess_type`
strips the `.ipynb` suffix, resolves the URI and returns the backend
`type` metadata value as-is (which is Python `None` when the key is
absent — there is no `notebook` fallback), and falls back to
`directory` whenever the metadata query raises. -/
theorem guess_type_semantics (t : Option String) (msg : String) :
    guessType (bWithMeta t) (fun _ => false) "cloud/x/alice/nb.ipynb" true = t
    ∧ guessType (bCloudFail msg) (fun _ => false) "cloud/x/alice/nb.ipynb" true =
      some "directory"
    ∧ guessType (bTdbFail msg) (fun _ => false) "cloud/x/alice/nb.ipynb" true =
      some "directory" := by
  exact ⟨by rfl, by rfl, by rfl⟩

/-! ## Claim C2 -/

/-- The ordered-dict fold of `__list_category`'s per-record namespace
insertion produces exactly one node per distinct namespace, in
first-occurrence order. -/
theorem foldl_catNsNode_dedup (category : String) (recs : List ArrayRecord) :
    (recs.foldl
      (fun d nb => odInsert d nb.nspace (catNsNode category nb.nspace)) []).map
      Prod.snd =
      (dedupFirst (recs.map ArrayRecord.nspace)).map (catNsNode category) := by
  rw [← List.foldl_map (f := ArrayRecord.nspace)
    (g := fun d k => odInsert d k (catNsNode category k))]
  rw [foldl_odInsert_snd (catNsNode category) (recs.map ArrayRecord.nspace) []
    (by simp)]
  rfl

/-- Claim C2, counterexample.  The claim states that listing `cloud/c`
issues the catalog listing call for every category `c`, with the
profile fallback applying only when the owned aggregate is empty.  For
`owned` the code has no listing branch at all: against a catalog whose
owned listing holds a record in namespace `alice` (current user `bob`,
no organizations), the listing contains the profile-fallback node
`bob`, not a node for the distinct namespace `alice` appearing in the
owned records. -/
theorem list_category_owned_ignores_catalog_counterexample :
    (listCategory c2cat "owned" true).map modelEntryNames = .ok ["bob"]
    ∧ ¬ (listCategory c2cat "owned" true).map modelEntryNames =
      .ok ["alice"] := by
  refine ⟨by rfl, ?_⟩
  intro h
  rw [show (listCategory c2cat "owned" true).map modelEntryNames =
      .ok ["bob"] from by rfl] at h
  injection h with h2
  exact absurd h2 (by decide)

/-- Claim C2, amended.  For `shared` and `public` the corresponding
catalog listing call is used and the directory content holds exactly
one synthetic namespace node per distinct namespace among the returned
records, in first-occurrence order; for `owned` no listing call is
issued — the result is invariant under replacing the owned listing —
and the profile fallback always applies. -/
theorem list_category_grouping
    (cs cp co : Catalog) (recs recsP : List ArrayRecord)
    (l : Except Err (List ArrayRecord))
    (hs : cs.list_shared_arrays = .ok recs)
    (hp : cp.list_public_arrays = .ok recsP) :
    listCategory cs "shared" true =
      .ok ((((base_directory_model "shared").setPath
          "cloud/shared").setFormat (some "json")).setContent
        (.entries ((dedupFirst (recs.map ArrayRecord.nspace)).map
          (catNsNode "shared"))))
    ∧ listCategory cp "public" true =
      .ok ((((base_directory_model "public").setPath
          "cloud/public").setFormat (some "json")).setContent
        (.entries ((dedupFirst (recsP.map ArrayRecord.nspace)).map
          (catNsNode "public"))))
    ∧ listCategory { co with list_arrays := l } "owned" true =
      listCategory co "owned" true := by
  refine ⟨?_, ?_, by rfl⟩
  · simp only [listCategory, hs]
    norm_num
    rw [if_neg (fun hcon => absurd hcon.2 (by decide))]
    rw [foldl_catNsNode_dedup]
    rfl
  · simp only [listCategory, hp]
    norm_num
    rw [if_neg (show ¬(("public" : String) = "shared") from by decide)]
    norm_num
    rw [if_neg (fun hcon => absurd hcon.2 (by decide))]
    rw [foldl_catNsNode_dedup]
    rfl

/-- Witness for `list_category_grouping`, at a concrete catalog whose
shared listing holds namespaces `alice, bob, alice` (deduplicated to
two nodes) and whose public listing is empty. -/
theorem list_category_grouping_witness :
    listCategory
      { list_arrays := .ok [],
        list_shared_arrays :=
          .ok [⟨"n1", "alice", 1, []⟩, ⟨"n2", "bob", 1, []⟩,
            ⟨"n3", "alice", 1, []⟩],
        list_public_arrays := .ok [],
        user_profile := .ok ⟨"u", []⟩ } "shared" true =
      .ok ((((base_directory_model "shared").setPath
          "cloud/shared").setFormat (some "json")).setContent
        (.entries ((dedupFirst ["alice", "bob", "alice"]).map
          (catNsNode "shared")))) :=
  (list_category_grouping
    { list_arrays := .ok [],
      list_shared_arrays :=
        .ok [⟨"n1", "alice", 1, []⟩, ⟨"n2", "bob", 1, []⟩,
          ⟨"n3", "alice", 1, []⟩],
      list_public_arrays := .ok [],
      user_profile := .ok ⟨"u", []⟩ }
    { list_arrays := .ok [], list_shared_arrays := .ok [],
      list_public_arrays := .ok [], user_profile := .ok ⟨"u", []⟩ }
    { list_arrays := .ok [], list_shared_arrays := .ok [],
      list_public_arrays := .ok [], user_profile := .ok ⟨"u", []⟩ }
    [⟨"n1", "alice", 1, []⟩, ⟨"n2", "bob", 1, []⟩, ⟨"n3", "alice", 1, []⟩]
    [] (.ok []) (by rfl) (by rfl)).1

/-! ## Claim C3 -/

/-- Claim C3, counterexample.  The claim predicts exactly two synthetic
namespace nodes (`orgA`, `orgB`) for a user in those organizations.
The fallback also inserts a node for the user's own username first, so
the listing holds three nodes, not two. -/
theorem owned_fallback_node_count_counterexample :
    (listCategory c3cat "owned" true).map modelEntryNames =
      .ok ["u", "orgA", "orgB"]
    ∧ ¬ (listCategory c3cat "owned" true).map modelEntryNames =
      .ok ["orgA", "orgB"] := by
  refine ⟨by rfl, ?_⟩
  intro h
  rw [show (listCategory c3cat "owned" true).map modelEntryNames =
      .ok ["u", "orgA", "orgB"] from by rfl] at h
  injection h with h2
  exact absurd h2 (by decide)

/-- Claim C3, amended.  Listing `cloud/owned` for a user `u` with
organizations `a` and `b` (all distinct, neither organization named
`public`) yields exactly three synthetic namespace nodes — the user's
own namespace followed by the two organizations — all of directory
type, with zero leaf entries. -/
theorem owned_fallback_nodes (u a b : String) (cat : Catalog)
    (hua : u ≠ a) (hub : u ≠ b) (hab : a ≠ b)
    (hap : a ≠ "public") (hbp : b ≠ "public")
    (hprof : cat.user_profile = .ok ⟨u, [⟨a⟩, ⟨b⟩]⟩) :
    listCategory cat "owned" true =
      .ok ((((base_directory_model "owned").setPath
          "cloud/owned").setFormat (some "json")).setContent
        (.entries [ownedNsNode "owned" u, ownedNsNode "owned" a,
          ownedNsNode "owned" b]))
    ∧ (listCategory cat "owned" true).map
        (fun m => (modelEntries m).map Model.type) =
      .ok [some "directory", some "directory", some "directory"] := by
  have h1 : listCategory cat "owned" true =
      .ok ((((base_directory_model "owned").setPath
          "cloud/owned").setFormat (some "json")).setContent
        (.entries [ownedNsNode "owned" u, ownedNsNode "owned" a,
          ownedNsNode "owned" b])) := by
    simp only [listCategory, hprof]
    norm_num [odInsert, hua, hub, hab, hap, hbp]
    rfl
  refine ⟨h1, ?_⟩
  rw [h1]
  rfl

/-- Witness for `owned_fallback_nodes`, at the concrete profile
`(u, [orgA, orgB])`. -/
theorem owned_fallback_nodes_witness :
    listCategory c3cat "owned" true =
      .ok ((((base_directory_model "owned").setPath
          "cloud/owned").setFormat (some "json")).setContent
        (.entries [ownedNsNode "owned" "u", ownedNsNode "owned" "orgA",
          ownedNsNode "owned" "orgB"]))
    ∧ (listCategory c3cat "owned" true).map
        (fun m => (modelEntries m).map Model.type) =
      .ok [some "directory", some "directory", some "directory"] :=
  owned_fallback_nodes "u" "orgA" "orgB" c3cat (by decide) (by decide)
    (by decide) (by decide) (by decide) (by rfl)

/-! ## Claim C10 -/

/-- Claim C10.  URI resolution depends only on the trailing two
segments: any two paths with at least two slash-separated segments
whose final pair `(namespace, name)` agree resolve to the same backend
URI. -/
theorem uri_depends_on_last_two_segments (p q : String)
    (hp : 2 ≤ (pySplit p "/").length) (hq : 2 ≤ (pySplit q "/").length)
    (hns : (pySplit p "/").getD ((pySplit p "/").length - 2) "" =
      (pySplit q "/").getD ((pySplit q "/").length - 2) "")
    (hnm : (pySplit p "/").getD ((pySplit p "/").length - 1) "" =
      (pySplit q "/").getD ((pySplit q "/").length - 1) "") :
    tiledbUriFromPath p = tiledbUriFromPath q := by
  simp only [tiledbUriFromPath, ite_self]
  rw [pyGet_len_sub_two _ hp, pyGet_len_sub_two _ hq,
    pyGet_len_sub_one _ (by omega), pyGet_len_sub_one _ (by omega),
    hns, hnm]

/-- Witness for `uri_depends_on_last_two_segments`: the spec's own
example, `cloud/owned/alice/x` versus `x/y/alice/x`. -/
theorem uri_depends_on_last_two_segments_witness :
    tiledbUriFromPath "cloud/owned/alice/x" = tiledbUriFromPath "x/y/alice/x"
    ∧ tiledbUriFromPath "cloud/owned/alice/x" = "tiledb://alice/x" :=
  ⟨uri_depends_on_last_two_segments "cloud/owned/alice/x" "x/y/alice/x"
    (by decide) (by decide) (by rfl) (by rfl), by rfl⟩

/-! ## Claim C4 -/

/-- Claim C4, counterexample.  The claim states that every remote save
whose content is not a mapping containing a `metadata` mapping raises
before any backend work.  When the content is a mapping whose
`metadata` value is a plain string, `'language_info' in
model['content']['metadata']` degrades to a substring test and raises
nothing: the save proceeds to the file-save dispatch (with `_is_new`
left `True`, so a backend create would even be attempted). -/
theorem save_metadata_string_counterexample :
    saveDispatch
      [("type", .str "file"), ("content", .dict [("metadata", .str "x")])]
      "cloud/owned/alice/data" =
      .ok (.fileSave "cloud/owned/alice/data" true) := by rfl

/-- Claim C4, amended.  On a remote path, `save` computes `_is_new`
from `model['content']['metadata']` before dispatching on
`model['type']`: `_is_new` is false exactly when `language_info` is a
key of that mapping, a string content raises `TypeError`, and a
mapping without a `metadata` key raises `KeyError` — in each of the
two error cases before any backend array is created or written,
whatever the backend state (the result is independent of it, and in
particular holds for the well-typed type `file` save with string
content). -/
theorem save_is_new_and_bad_content (path : String) (s : String)
    (d md : List (String × PyVal))
    (hr : isRemotePath (pyStrip path) = true)
    (hmd : dictGet d "metadata" = none) :
    saveDispatch [("type", .str "file"), ("content", .str s)] path =
      .error (.typeExc "string indices must be integers")
    ∧ saveDispatch [("type", .str "file"), ("content", .dict d)] path =
      .error (.keyExc "metadata")
    ∧ computeIsNew (.dict [("metadata", .dict md)]) =
      .ok (¬ (dictGet md "language_info").isSome) := by
  have hne : pyStrip path ≠ "" := by
    intro h
    rw [h] at hr
    exact absurd hr (by decide)
  refine ⟨?_, ?_, ?_⟩
  · simp only [saveDispatch, dictGet, computeIsNew, pySubscr]
    rw [if_neg hne]
    simp [hr, pyIsStr]
  · simp only [saveDispatch, dictGet, computeIsNew, pySubscr]
    rw [if_neg hne]
    simp [hr, hmd, pyIsStr]
  · simp [computeIsNew, pySubscr, dictGet, pyInOp]

/-- Witness for `save_is_new_and_bad_content`, at a concrete remote
path and empty dictionaries. -/
theorem save_is_new_and_bad_content_witness :
    saveDispatch [("type", .str "file"), ("content", .str "hello")]
      "cloud/owned/alice/data" =
      .error (.typeExc "string indices must be integers")
    ∧ saveDispatch [("type", .str "file"), ("content", .dict [])]
      "cloud/owned/alice/data" =
      .error (.keyExc "metadata")
    ∧ computeIsNew (.dict [("metadata", .dict [])]) =
      .ok (¬ (dictGet [] "language_info").isSome) :=
  save_is_new_and_bad_content "cloud/owned/alice/data" "hello" [] []
    (by rfl) (by rfl)

/-- Reading back the `content` field just written by `model["content"] = c`. -/
theorem Model.content_setContent (m : Model) (c : MContent Model) :
    (m.setContent c).content = c := by
  cases m
  rfl

/-! ## Claim C8 -/

/-- Claim C8.  Writing bytes `B` to an existing array (`_is_new` false)
and reading the same URI back returns exactly `B`: after the write the
array's `file_size` metadata equals `len(B)`, and the read slices
exactly `[0, file_size)` of the cells, which the write just set to
`B`. -/
theorem write_read_round_trip (b : Backend) (uri : String) (B old : List Nat)
    (meta : ArrayMeta) (inf : ArrayInfo) (mt fm : Option String)
    (cr : String → Except Err (Option (String × String)))
    (hb : b.openArray (tiledbUriFromPath uri) = .ok ⟨old, meta⟩)
    (hi : b.info (tiledbUriFromPath uri) = .ok inf) :
    (writeBytesToArray cr b false uri B mt fm (some "file")).bind
      (fun p => (fileFromArray p.1 uri true none).map Model.content) =
      .ok (.bytes B)
    ∧ (writeBytesToArray cr b false uri B mt fm (some "file")).bind
      (fun p => (p.1.openArray (tiledbUriFromPath uri)).map
        (fun a => a.meta.file_size)) = .ok (some B.length) := by
  refine ⟨?_, ?_⟩
  · simp [writeBytesToArray, fileFromArray, Except.bind, Except.map, hb, hi,
      List.take_left, Model.content_setContent]
  · simp [writeBytesToArray, Except.bind, Except.map, hb]

/-- Witness for `write_read_round_trip`: bytes `[1, 2, 3]` written over
an existing two-byte array round-trip, with `file_size = 3`. -/
theorem write_read_round_trip_witness :
    (writeBytesToArray (fun _ => .ok none)
        (rtBackend "tiledb://alice/f" [9, 9] ⟨none, none, none, none⟩) false
        "cloud/owned/alice/f" [1, 2, 3] none none (some "file")).bind
      (fun p => (fileFromArray p.1 "cloud/owned/alice/f" true none).map
        Model.content) = .ok (.bytes [1, 2, 3])
    ∧ (writeBytesToArray (fun _ => .ok none)
        (rtBackend "tiledb://alice/f" [9, 9] ⟨none, none, none, none⟩) false
        "cloud/owned/alice/f" [1, 2, 3] none none (some "file")).bind
      (fun p => (p.1.openArray (tiledbUriFromPath "cloud/owned/alice/f")).map
        (fun a => a.meta.file_size)) = .ok (some 3) :=
  write_read_round_trip
    (rtBackend "tiledb://alice/f" [9, 9] ⟨none, none, none, none⟩)
    "cloud/owned/alice/f" [1, 2, 3] [9, 9] ⟨none, none, none, none⟩
    ⟨1, ["write"]⟩ none none (fun _ => .ok none) (by rfl) (by rfl)
